import Mathlib

/-!
Verification of the medadapt content server core: the SQLite-backed
resource store (`database.py`), the topic relationship queries, and the
cache-first resolution engine (`content_server.py`).

The SQLite tables are modelled as Lean lists in rowid (insertion) order;
each `database.py` function becomes a pure function on those lists.
`datetime.now()` timestamps are passed in explicitly.  The external HTTP
adapters (`pubmed_utils.py`, `bookshelf_utils.py`) are parameters of the
engine functions, returning `Except` values (an exception in the Python
maps to `.error`); every value the repository ever stores in the
`cached_content` column is either `{}` or a flat string-valued JSON
object, so the column is modelled by `JsonVal` below, with Python
truthiness made explicit.
-/

namespace MedAdapt

/-- JSON payloads stored in the `cached_content` column.  `add_resource`
stores `json.dumps(resource_data.get('cached_content', {}))`; the values
the repository ever passes are absent (default `\x7b\x7d`) or flat objects with
string values such as `\x7b'content': text\x7d`, so objects are modelled with
string-valued fields. -/
inductive JsonVal where
  | null : JsonVal
  | str (s : String) : JsonVal
  | obj (fields : List (String × String)) : JsonVal
deriving Repr, DecidableEq

/-- Python truthiness of a parsed JSON value: `None` and the empty dict
and empty string are falsy, everything else here is truthy.  This is the
test `if resource.get('cached_content'):` performs after `json.loads`. -/
def JsonVal.truthy : JsonVal → Bool
  | .null => false
  | .str s => s != ""
  | .obj fields => !fields.isEmpty

/-- `json.dumps` of a modelled payload, used by the `LIKE` match in
`search_resources` (the column holds this serialized text). -/
def JsonVal.dumps : JsonVal → String
  | .null => "null"
  | .str s => "\x22" ++ s ++ "\x22"
  | .obj fields =>
      "\x7b" ++ String.intercalate ", "
        (fields.map (fun kv => "\x22" ++ kv.1 ++ "\x22: \x22" ++ kv.2 ++ "\x22"))
      ++ "\x7d"

/-- A row of the `resources` table (schema from `initialize_database`).
`cached_content` holds the JSON value whose `dumps` is the stored TEXT;
`add_resource` always writes `dumps` of something, so the column is never
NULL or empty in any reachable state. -/
structure Resource where
  id : String
  title : String
  source_type : String
  specialty : Option String
  difficulty : Option String
  content_type : Option String
  source_id : Option String
  cached_content : JsonVal
  last_updated : String
  access_count : Nat
deriving Repr, DecidableEq

/-- The `resource_data` dict accepted by `add_resource`: required keys
`id`, `title`, `source_type`; the rest are read with `.get` (absent keys
become `none`).  `cached_content = none` models a dict without that key,
for which `add_resource` stores `json.dumps(\x7b\x7d)`.  A `last_updated` key in
the dict is ignored by `add_resource` (it always uses `datetime.now()`),
so it is not modelled; other keys (`abstract`, `url`, ...) are never read
by the database layer. -/
structure ResourceData where
  id : String
  title : String
  source_type : String
  specialty : Option String
  difficulty : Option String
  content_type : Option String
  source_id : Option String
  cached_content : Option JsonVal
deriving Repr, DecidableEq

/-- The row `add_resource` writes for data `rd` at time `now` with a
given `access_count` (0 on insert, the preserved count on update). -/
def ResourceData.store (rd : ResourceData) (now : String) (count : Nat) : Resource :=
  { id := rd.id
    title := rd.title
    source_type := rd.source_type
    specialty := rd.specialty
    difficulty := rd.difficulty
    content_type := rd.content_type
    source_id := rd.source_id
    cached_content := rd.cached_content.getD (.obj [])
    last_updated := now
    access_count := count }

/-- `database.add_resource`: check `SELECT id FROM resources WHERE id = ?`;
if a row exists, `UPDATE` every column except `access_count` (the SQL
`WHERE id = ?` touches all rows with that id); otherwise `INSERT` with
`access_count = 0` (appended, as a new rowid). -/
def addResource (now : String) (rd : ResourceData) (db : List Resource) : List Resource :=
  if db.any (fun r => r.id == rd.id) then
    db.map (fun r =>
      if r.id == rd.id then
        { id := r.id
          title := rd.title
          source_type := rd.source_type
          specialty := rd.specialty
          difficulty := rd.difficulty
          content_type := rd.content_type
          source_id := rd.source_id
          cached_content := rd.cached_content.getD (.obj [])
          last_updated := now
          access_count := r.access_count }
      else r)
  else
    db ++ [rd.store now 0]

/-- `database.get_resource`: `SELECT * ... WHERE id = ?` then, if a row was
found, `UPDATE resources SET access_count = access_count + 1 WHERE id = ?`.
Returns the row as fetched (before the increment) together with the table
after the increment; `None` with the table untouched when the id is
unknown. -/
def getResource (rid : String) (db : List Resource) : Option Resource × List Resource :=
  match db.find? (fun r => r.id == rid) with
  | none => (none, db)
  | some r =>
      (some r,
       db.map (fun x =>
         if x.id == rid then { x with access_count := x.access_count + 1 } else x))

/-- `n` sequential `get_resource(rid)` calls, keeping only the final table. -/
def getN (rid : String) : Nat → List Resource → List Resource
  | 0, db => db
  | n + 1, db => getN rid n (getResource rid db).2

/-- Python truthiness of an optional TEXT parameter: `None` and `""` are
falsy, so `if query:` / `if specialty:` skip the corresponding clause. -/
def optTruthy : Option String → Bool
  | none => false
  | some s => s != ""

/-- One `field = ?` clause of `search_resources`: only added when the
parameter is truthy; SQL equality against a NULL column is never true. -/
def optFilter (param : Option String) (field : Option String) : Bool :=
  match param with
  | none => true
  | some p => if p == "" then true else field == some p

/-- SQL `LIKE '%pat%'` on a TEXT value. -/
def strContains (s pat : String) : Bool :=
  decide (pat.toList <:+: s.toList)

/-- The `(title LIKE ? OR cached_content LIKE ?)` clause, added only for a
truthy `query`; the column holds the `dumps` serialization. -/
def matchesQuery (query : Option String) (r : Resource) : Bool :=
  match query with
  | none => true
  | some q =>
      if q == "" then true
      else strContains r.title q || strContains r.cached_content.dumps q

/-- The full conjunctive WHERE clause of `search_resources`. -/
def matchesSearch (query specialty difficulty content_type : Option String)
    (r : Resource) : Bool :=
  matchesQuery query r
    && optFilter specialty r.specialty
    && optFilter difficulty r.difficulty
    && optFilter content_type r.content_type

/-- `database.search_resources`: conjunctive filters, then
`ORDER BY access_count DESC` (ties left in table order, modelled by a
stable insertion sort), then `LIMIT ?`.  No side effect on the table. -/
def searchResources (query specialty difficulty content_type : Option String)
    (limit : Nat) (db : List Resource) : List Resource :=
  (List.insertionSort (fun a b => b.access_count ≤ a.access_count)
    (db.filter (matchesSearch query specialty difficulty content_type))).take limit

/-- A row of the `topic_mappings` table: `(topic, parent_topic)` with
optional annotations; `parent_topic` may be NULL. -/
structure TopicMapping where
  topic : String
  parent_topic : Option String
  specialty : Option String
  description : Option String
deriving Repr, DecidableEq

/-- First-seen-order deduplication, as `list(dict.fromkeys(related))`
performs in `get_related_topics`. -/
def dedupAux (seen : List String) : List String → List String
  | [] => []
  | x :: xs => if x ∈ seen then dedupAux seen xs else x :: dedupAux (x :: seen) xs

def firstSeenDedup (l : List String) : List String :=
  dedupAux [] l

/-- `database.get_related_topics`: three queries against `topic_mappings`
(rows scanned in rowid order; the sibling self-join is a nested loop with
`tm1` outer), then `list(dict.fromkeys(parents + children + siblings))`
truncated to `limit`.  SQL equality never matches a NULL `parent_topic`,
and the Python comprehension `if row['parent_topic']` drops NULL and `""`
parents; the sibling sub-query alone carries a `LIMIT ?`. -/
def getRelatedTopics (topic : String) (limit : Nat) (tms : List TopicMapping) : List String :=
  let parents := (tms.filter (fun m => m.topic == topic)).filterMap
    (fun m => match m.parent_topic with
      | some p => if p != "" then some p else none
      | none => none)
  let children := ((tms.filter (fun m => m.parent_topic == some topic)).map
    (fun m => m.topic)).filter (fun c => c != topic)
  let siblings := (((tms.filter (fun m1 => m1.topic == topic)).map
    (fun m1 => match m1.parent_topic with
      | some p => ((tms.filter (fun m2 => m2.parent_topic == some p)).map
          (fun m => m.topic)).filter (fun s2 => s2 != topic)
      | none => [])).flatten).take limit
  (firstSeenDedup (parents ++ children ++ siblings)).take limit

/-- Spec wording (§4.3a): all `parent_topic` values where `topic` is the
subject. -/
def relatedParents (topic : String) (tms : List TopicMapping) : List String :=
  (tms.filter (fun m => m.topic == topic)).filterMap
    (fun m => match m.parent_topic with
      | some p => if p != "" then some p else none
      | none => none)

/-- Spec wording (§4.3b): all `topic` values where `topic` is the
`parent_topic`, excluding self. -/
def relatedChildren (topic : String) (tms : List TopicMapping) : List String :=
  ((tms.filter (fun m => m.parent_topic == some topic)).map
    (fun m => m.topic)).filter (fun c => c != topic)

/-- Spec wording (§4.3c), before its private truncation: topics sharing
any `parent_topic` with `topic`, excluding `topic` itself. -/
def relatedSiblingsAll (topic : String) (tms : List TopicMapping) : List String :=
  ((tms.filter (fun m1 => m1.topic == topic)).map
    (fun m1 => match m1.parent_topic with
      | some p => ((tms.filter (fun m2 => m2.parent_topic == some p)).map
          (fun m => m.topic)).filter (fun s2 => s2 != topic)
      | none => [])).flatten

/-- The §4.3 contract: `dedup(parents ++ children ++ siblings)` truncated
to `limit`, with the sibling list independently truncated to `limit`
before the merge. -/
def relatedTopicsSpec (topic : String) (limit : Nat) (tms : List TopicMapping) : List String :=
  (firstSeenDedup (relatedParents topic tms ++ relatedChildren topic tms
    ++ (relatedSiblingsAll topic tms).take limit)).take limit

/-- A row of the `user_documents` table. -/
structure UserDocument where
  id : String
  title : String
  content : String
  upload_date : String
deriving Repr, DecidableEq

/-- The two mutable tables the resolution engine touches.  (The
`topic_mappings` table is read-only for the engine and passed
separately.) -/
structure DBState where
  resources : List Resource
  user_documents : List UserDocument
deriving Repr, DecidableEq

/-- `database.add_user_document`: build
`doc_id = "user-doc-" + now.strftime(...)` (the 14-digit timestamp `ts`),
`INSERT` into `user_documents` (the raw INSERT raises on a duplicate id,
modelled as `none`), then mirror into `resources` via `add_resource` with
`source_type = 'user_provided'`, `content_type = 'document'` and
`cached_content = \x7b'content': content\x7d`.  Both `datetime.now()` calls of
the Python are the single instant `now`. -/
def addUserDocument (ts now : String) (title content : String) (st : DBState) :
    Option (String × DBState) :=
  let doc_id := "user-doc-" ++ ts
  if st.user_documents.any (fun d => d.id == doc_id) then
    none
  else
    let rd : ResourceData :=
      { id := doc_id
        title := title
        source_type := "user_provided"
        specialty := none
        difficulty := none
        content_type := some "document"
        source_id := none
        cached_content := some (.obj [("content", content)]) }
    some (doc_id,
      { resources := addResource now rd st.resources
        user_documents := st.user_documents ++ [⟨doc_id, title, content, now⟩] })

/-- An element of the list `search_medical_content` returns: either a row
read back from the store or a dict coming straight from an adapter. -/
inductive SearchItem where
  | stored (r : Resource) : SearchItem
  | fetched (rd : ResourceData) : SearchItem
deriving Repr, DecidableEq

/-- Result of one `search_medical_content` call: the returned list, the
`resources` table afterwards, and whether each adapter search ran. -/
structure SearchOutcome where
  results : List SearchItem
  resources : List Resource
  pubmedCalled : Bool
  bookshelfCalled : Bool
deriving Repr, DecidableEq

/-- The write-back loop `for result in ...: database.add_resource(result)`. -/
def storeAll (now : String) (rds : List ResourceData) (db : List Resource) : List Resource :=
  rds.foldl (fun d rd => addResource now rd d) db

/-- `search_medical_content` from `content_server.py`.  The two adapter
searches are parameters returning `Except` (a raised exception is
`.error`, caught by the surrounding `try`/`except` and replaced by `[]`).
Local search first; if it already yields `max_results` rows they are
returned with no adapter call; otherwise the remainder is split
`remaining // 2` to PubMed and the rest to Bookshelf, each adapter with a
nonzero allocation is called, its results written through via
`add_resource`, and `local + pubmed + bookshelf` is truncated to
`max_results`. -/
def searchMedicalContent
    (searchPubmed searchBookshelf : String → Nat → Except String (List ResourceData))
    (now query : String) (specialty difficulty content_type : Option String)
    (max_results : Nat) (db : List Resource) : SearchOutcome :=
  let local_results := searchResources (some query) specialty difficulty content_type
    max_results db
  if max_results ≤ local_results.length then
    ⟨local_results.map SearchItem.stored, db, false, false⟩
  else
    let remaining := max_results - local_results.length
    let pubmed_count := remaining / 2
    let bookshelf_count := remaining - pubmed_count
    let pubmedStep :=
      if 0 < pubmed_count then
        match searchPubmed query pubmed_count with
        | .ok rs => (rs, storeAll now rs db, true)
        | .error _ => (([] : List ResourceData), db, true)
      else (([] : List ResourceData), db, false)
    let bookshelfStep :=
      if 0 < bookshelf_count then
        match searchBookshelf query bookshelf_count with
        | .ok rs => (rs, storeAll now rs pubmedStep.2.1, true)
        | .error _ => (([] : List ResourceData), pubmedStep.2.1, true)
      else (([] : List ResourceData), pubmedStep.2.1, false)
    ⟨(local_results.map SearchItem.stored ++ pubmedStep.1.map SearchItem.fetched
        ++ bookshelfStep.1.map SearchItem.fetched).take max_results,
     bookshelfStep.2.1, pubmedStep.2.2, bookshelfStep.2.2⟩

/-- Value returned by `get_resource_content`: the cached row, a freshly
fetched content dict, or an `\x7b"error": msg\x7d` dict carrying `msg`. -/
inductive DetailResult where
  | cached (r : Resource) : DetailResult
  | fetched (rd : ResourceData) : DetailResult
  | error (msg : String) : DetailResult
deriving Repr, DecidableEq

/-- Result of one `get_resource_content` call: the returned value, the
database afterwards, and whether an external fetch (PubMed article, book,
or chapter) was attempted. -/
structure DetailOutcome where
  result : DetailResult
  state : DBState
  adapterCalled : Bool
deriving Repr, DecidableEq

/-- The tail of `get_resource_content`: `if 'error' not in content:` store
the fetched dict via `add_resource`, else store nothing; either way the
dict itself is returned. -/
def finishFetch (now : String) (st : DBState) (content : Except String ResourceData)
    (called : Bool) : DetailOutcome :=
  match content with
  | .ok rd => ⟨.fetched rd, { st with resources := addResource now rd st.resources }, called⟩
  | .error e => ⟨.error e, st, called⟩

/-- The dict the user-document branch of `get_resource_content` builds
from a `user_documents` row, restricted to the keys `add_resource` reads:
its `content` and `upload_date` keys are never consumed by the database
layer, and it carries no `cached_content` or `content_type` key. -/
def userDocContent (d : UserDocument) : ResourceData :=
  { id := d.id
    title := d.title
    source_type := "user_provided"
    specialty := none
    difficulty := none
    content_type := none
    source_id := none
    cached_content := none }

/-- Python `s.startswith(marker)`. -/
def pyStartsWith (s marker : String) : Bool :=
  List.isPrefixOf marker.data s.data

/-- Removal of every occurrence of `pat` from a char list, structurally
recursive on a fuel bound (`fuel ≥ l.length` always holds at the call
site, so the fuel clause is never the one that fires). -/
def removeAllAux (pat : List Char) : Nat → List Char → List Char
  | _, [] => []
  | 0, l => l
  | fuel + 1, c :: rest =>
      if pat.isPrefixOf (c :: rest) && !pat.isEmpty then
        removeAllAux pat fuel ((c :: rest).drop pat.length)
      else c :: removeAllAux pat fuel rest

/-- Python `s.replace(pat, "")`: every occurrence of `pat` removed, left
to right. -/
def pyRemoveAll (s pat : String) : String :=
  ⟨removeAllAux pat.data s.data.length s.data⟩

/-- Python `s.split(sep)` for a one-character separator (the code only
ever splits on `'-'`). -/
def splitOnChar (sep : Char) : List Char → List (List Char)
  | [] => [[]]
  | c :: rest =>
      match splitOnChar sep rest with
      | [] => [[c]]
      | h :: t => if c == sep then [] :: h :: t else (c :: h) :: t

/-- The id-routing half of `get_resource_content` (after the cache
check): dispatch on the `pubmed-` / `bookshelf-` / `user-doc-` id forms
(Python `str.replace` removes every occurrence of the marker, and the
`bookshelf-` remainder is split on `-`, parts beyond the second being
ignored); any other id returns the unknown-format error dict with
nothing persisted. -/
def resolveById (fetchPubmed fetchBook : String → Except String ResourceData)
    (fetchChapter : String → String → Except String ResourceData)
    (now rid : String) (st : DBState) : DetailOutcome :=
  if pyStartsWith rid "pubmed-" then
    let pmid := pyRemoveAll rid "pubmed-"
    finishFetch now st (fetchPubmed pmid) true
  else if pyStartsWith rid "bookshelf-" then
    let parts := (splitOnChar (Char.ofNat 45) (pyRemoveAll rid "bookshelf-").data).map
      (fun cs => String.mk cs)
    if 1 < parts.length then
      finishFetch now st (fetchChapter (parts.getD 0 "") (parts.getD 1 "")) true
    else
      finishFetch now st (fetchBook (parts.getD 0 "")) true
  else if pyStartsWith rid "user-doc-" then
    match st.user_documents.find? (fun d => d.id == rid) with
    | some d => finishFetch now st (.ok (userDocContent d)) false
    | none => ⟨.error ("User document not found: " ++ rid), st, false⟩
  else
    ⟨.error ("Unknown resource ID format: " ++ rid), st, false⟩

/-- `get_resource_content` from `content_server.py`: first
`database.get_resource` (which already increments `access_count` when the
row exists), then the cache test
`if resource and resource.get('cached_content'):` on the parsed payload;
on a miss, route by id and fetch. -/
def getResourceContent (fetchPubmed fetchBook : String → Except String ResourceData)
    (fetchChapter : String → String → Except String ResourceData)
    (now rid : String) (st : DBState) : DetailOutcome :=
  let looked := getResource rid st.resources
  let st1 : DBState := { st with resources := looked.2 }
  match looked.1 with
  | some r =>
      if r.cached_content.truthy then ⟨.cached r, st1, false⟩
      else resolveById fetchPubmed fetchBook fetchChapter now rid st1
  | none => resolveById fetchPubmed fetchBook fetchChapter now rid st1

/-- A pubmed search-result dict as `search_pubmed` builds it (the keys
`add_resource` reads); note it carries no `cached_content` key. -/
def samplePubmedData : ResourceData :=
  { id := "pubmed-1"
    title := "Sample article"
    source_type := "pubmed"
    specialty := none
    difficulty := none
    content_type := some "article"
    source_id := some "1"
    cached_content := none }

/-!  ## Theorems  -/

theorem find?_map_of_id_eq (rid : String) (db : List Resource)
    (f : Resource → Resource) (hf : ∀ x, (f x).id = x.id) :
    (db.map f).find? (fun r => r.id == rid) = (db.find? (fun r => r.id == rid)).map f := by
  induction db with
  | nil => rfl
  | cons a l ih =>
      simp only [List.map_cons, List.find?_cons, hf a]
      cases h : (a.id == rid) <;> simp [h, ih]

theorem getResource_absent (rid : String) (db : List Resource)
    (h : db.find? (fun x => x.id == rid) = none) :
    getResource rid db = (none, db) := by
  unfold getResource
  rw [h]

theorem getResource_fst (rid : String) (db : List Resource) :
    (getResource rid db).1 = db.find? (fun x => x.id == rid) := by
  unfold getResource
  cases h : db.find? (fun x => x.id == rid) <;> simp

theorem getResource_snd_of_find? (rid : String) (db : List Resource) (r : Resource)
    (h : db.find? (fun x => x.id == rid) = some r) :
    (getResource rid db).2
      = db.map (fun x =>
          if x.id == rid then { x with access_count := x.access_count + 1 } else x) := by
  unfold getResource
  rw [h]

theorem bumpIf_id (rid : String) (x : Resource) :
    (if x.id == rid then { x with access_count := x.access_count + 1 } else x).id = x.id := by
  by_cases h : (x.id == rid) = true <;> simp [h]

theorem find?_getResource_snd (rid : String) (db : List Resource) (r : Resource)
    (h : db.find? (fun x => x.id == rid) = some r) :
    ((getResource rid db).2).find? (fun x => x.id == rid)
      = some { r with access_count := r.access_count + 1 } := by
  rw [getResource_snd_of_find? rid db r h,
    find?_map_of_id_eq rid db _ (bumpIf_id rid), h]
  have hr : r.id = rid := by simpa using List.find?_some h
  simp [hr]

theorem getN_find? (rid : String) (n : Nat) (db : List Resource) (r : Resource)
    (h : db.find? (fun x => x.id == rid) = some r) :
    (getN rid n db).find? (fun x => x.id == rid)
      = some { r with access_count := r.access_count + n } := by
  induction n generalizing db r with
  | zero => simpa [getN] using h
  | succ n ih =>
      have h2 := find?_getResource_snd rid db r h
      have h3 := ih _ _ h2
      rw [getN, h3]
      have hc : r.access_count + 1 + n = r.access_count + (n + 1) := by omega
      simp [hc]

theorem addResource_fresh (now : String) (rd : ResourceData) (db : List Resource)
    (h : db.any (fun x => x.id == rd.id) = false) :
    addResource now rd db = db ++ [rd.store now 0] := by
  simp [addResource, h]

theorem addResource_fresh_find? (now : String) (rd : ResourceData) (db : List Resource)
    (h : db.any (fun x => x.id == rd.id) = false) :
    (addResource now rd db).find? (fun x => x.id == rd.id) = some (rd.store now 0) := by
  rw [addResource_fresh now rd db h, List.find?_append]
  have hnone : db.find? (fun x => x.id == rd.id) = none := by
    rw [List.find?_eq_none]
    intro x hx
    exact fun hpx => by simpa [hpx] using List.any_eq_false.mp h x hx
  rw [hnone]
  simp [ResourceData.store]

theorem addResource_present_map (now : String) (rd : ResourceData) (db : List Resource)
    (h : db.any (fun x => x.id == rd.id) = true) :
    addResource now rd db
      = db.map (fun r => if r.id == rd.id then rd.store now r.access_count else r) := by
  unfold addResource
  rw [if_pos h]
  apply List.map_congr_left
  intro a _
  by_cases hc : (a.id == rd.id) = true
  · rw [if_pos hc, if_pos hc]
    have : a.id = rd.id := beq_iff_eq.mp hc
    simp [ResourceData.store, this]
  · rw [if_neg hc, if_neg hc]

theorem storeIf_id (now : String) (rd : ResourceData) (x : Resource) :
    (if x.id == rd.id then rd.store now x.access_count else x).id = x.id := by
  by_cases h : (x.id == rd.id) = true
  · rw [if_pos h, beq_iff_eq.mp h]
    rfl
  · rw [if_neg h]

theorem addResource_present_find? (now : String) (rd : ResourceData) (db : List Resource)
    (r : Resource) (h : db.find? (fun x => x.id == rd.id) = some r) :
    (addResource now rd db).find? (fun x => x.id == rd.id)
      = some (rd.store now r.access_count) := by
  have hany : db.any (fun x => x.id == rd.id) = true :=
    List.any_eq_true.mpr
      ⟨r, List.mem_of_find?_eq_some h, by simpa using List.find?_some h⟩
  rw [addResource_present_map now rd db hany,
    find?_map_of_id_eq rd.id db _ (storeIf_id now rd), h]
  have hr : r.id = rd.id := by simpa using List.find?_some h
  simp [hr, ResourceData.store]

theorem addResource_find? (now : String) (rd : ResourceData) (db : List Resource) :
    (addResource now rd db).find? (fun x => x.id == rd.id)
      = some (rd.store now
          (((db.find? (fun x => x.id == rd.id)).map Resource.access_count).getD 0)) := by
  cases h : db.find? (fun x => x.id == rd.id) with
  | none =>
      have hany : db.any (fun x => x.id == rd.id) = false := by
        rw [List.any_eq_false]
        exact fun x hx => List.find?_eq_none.mp h x hx
      rw [addResource_fresh_find? now rd db hany]
      rfl
  | some r =>
      rw [addResource_present_find? now rd db r h]
      rfl

theorem filter_length_addResource (now : String) (rd : ResourceData) (db : List Resource) :
    ((addResource now rd db).filter (fun x => x.id == rd.id)).length
      = if db.any (fun x => x.id == rd.id) then
          ((db.filter (fun x => x.id == rd.id)).length)
        else ((db.filter (fun x => x.id == rd.id)).length) + 1 := by
  by_cases h : db.any (fun x => x.id == rd.id) = true
  · rw [if_pos h, addResource_present_map now rd db h,
      ← List.countP_eq_length_filter, ← List.countP_eq_length_filter, List.countP_map]
    apply List.countP_congr
    intro a _
    simp only [Function.comp_apply]
    rw [storeIf_id now rd a]
  · have h' : db.any (fun x => x.id == rd.id) = false := by
      simpa using h
    rw [if_neg h, addResource_fresh now rd db h', List.filter_append]
    simp [ResourceData.store]

theorem addResource_any (now : String) (rd : ResourceData) (db : List Resource) :
    (addResource now rd db).any (fun x => x.id == rd.id) = true :=
  List.any_eq_true.mpr
    ⟨_, List.mem_of_find?_eq_some (addResource_find? now rd db),
      by simpa using List.find?_some (addResource_find? now rd db)⟩

theorem filter_length_of_nodup (rd : ResourceData) (db : List Resource)
    (h : (db.map Resource.id).Nodup)
    (hany : db.any (fun x => x.id == rd.id) = true) :
    ((db.filter (fun x => x.id == rd.id)).length) = 1 := by
  have hcount : (db.map Resource.id).count rd.id ≤ 1 :=
    List.nodup_iff_count_le_one.mp h rd.id
  have hmem : rd.id ∈ db.map Resource.id := by
    obtain ⟨x, hx, hpx⟩ := List.any_eq_true.mp hany
    exact List.mem_map.mpr ⟨x, hx, beq_iff_eq.mp hpx⟩
  have hpos : 0 < (db.map Resource.id).count rd.id := List.count_pos_iff.mpr hmem
  have heq : ((db.filter (fun x => x.id == rd.id)).length)
      = (db.map Resource.id).count rd.id := by
    rw [← List.countP_eq_length_filter, List.count, List.countP_map]
    rfl
  omega

/-- C2.  Upsert semantics of `add_resource`: with a record of the same id
present it rewrites every mutable column and the timestamp while keeping
the stored `access_count`; with the id absent it appends a fresh record
with `access_count = 0`.  Hence two puts of the same data leave exactly
one record under that id, and the second put does not change the stored
`access_count`. -/
theorem addResource_upsert (now now' : String) (rd : ResourceData) (db : List Resource)
    (h : (db.map Resource.id).Nodup) :
    addResource now rd db
      = (if db.any (fun r => r.id == rd.id) then
          db.map (fun r => if r.id == rd.id then rd.store now r.access_count else r)
        else db ++ [rd.store now 0])
    ∧ ((addResource now' rd (addResource now rd db)).filter (fun r => r.id == rd.id)).length = 1
    ∧ ((addResource now' rd (addResource now rd db)).find? (fun r => r.id == rd.id)).map
        Resource.access_count
      = ((addResource now rd db).find? (fun r => r.id == rd.id)).map Resource.access_count := by
  refine ⟨?_, ?_, ?_⟩
  · by_cases hany : db.any (fun x => x.id == rd.id) = true
    · rw [if_pos hany]
      exact addResource_present_map now rd db hany
    · have h' : db.any (fun x => x.id == rd.id) = false := by simpa using hany
      rw [if_neg hany]
      exact addResource_fresh now rd db h'
  · rw [filter_length_addResource now' rd (addResource now rd db),
      if_pos (addResource_any now rd db)]
    by_cases hany : db.any (fun x => x.id == rd.id) = true
    · rw [filter_length_addResource now rd db, if_pos hany]
      exact filter_length_of_nodup rd db h hany
    · have h' : db.any (fun x => x.id == rd.id) = false := by simpa using hany
      rw [filter_length_addResource now rd db, if_neg hany]
      have : (db.filter (fun x => x.id == rd.id)).length = 0 := by
        rw [List.length_eq_zero, List.filter_eq_nil_iff]
        intro a ha
        exact fun hpa => by simpa [hpa] using List.any_eq_false.mp h' a ha
      omega
  · rw [addResource_find? now' rd (addResource now rd db), addResource_find? now rd db]
    rfl

/-- C2 witness: the upsert theorem applied at a concrete store. -/
theorem addResource_upsert_witness :
    (([] : List Resource).map Resource.id).Nodup
    ∧ (addResource "t0" samplePubmedData []
        = (if ([] : List Resource).any (fun r => r.id == samplePubmedData.id) then
            ([] : List Resource).map (fun r =>
              if r.id == samplePubmedData.id then
                samplePubmedData.store "t0" r.access_count
              else r)
          else ([] : List Resource) ++ [samplePubmedData.store "t0" 0])
      ∧ ((addResource "t1" samplePubmedData (addResource "t0" samplePubmedData [])).filter
          (fun r => r.id == samplePubmedData.id)).length = 1
      ∧ ((addResource "t1" samplePubmedData (addResource "t0" samplePubmedData [])).find?
          (fun r => r.id == samplePubmedData.id)).map Resource.access_count
        = ((addResource "t0" samplePubmedData []).find?
            (fun r => r.id == samplePubmedData.id)).map Resource.access_count) :=
  ⟨by decide, addResource_upsert "t0" "t1" samplePubmedData [] (by decide)⟩

/-- C3.  `get_resource` returns the stored row when the id is present and,
as a side effect, raises exactly that row's `access_count` by one (all
other columns and rows untouched); an unknown id yields `None`, an
explicit absence marker, with the table unchanged; and `n` sequential
`get_resource` calls on a freshly inserted resource leave its stored
`access_count` equal to `n`. -/
theorem getResource_read_increments
    (rid ridA now : String) (rd : ResourceData)
    (db dbA dbF : List Resource) (r : Resource) (n : Nat)
    (hpres : db.find? (fun x => x.id == rid) = some r)
    (habs : dbA.find? (fun x => x.id == ridA) = none)
    (hfresh : dbF.any (fun x => x.id == rd.id) = false) :
    (getResource rid db).1 = some r
    ∧ (getResource rid db).2
        = db.map (fun x =>
            if x.id == rid then { x with access_count := x.access_count + 1 } else x)
    ∧ ((getResource rid db).2.find? (fun x => x.id == rid)).map Resource.access_count
        = some (r.access_count + 1)
    ∧ getResource ridA dbA = (none, dbA)
    ∧ ((getN rd.id n (addResource now rd dbF)).find? (fun x => x.id == rd.id)).map
        Resource.access_count = some n := by
  refine ⟨?_, getResource_snd_of_find? rid db r hpres, ?_,
    getResource_absent ridA dbA habs, ?_⟩
  · rw [getResource_fst, hpres]
  · rw [find?_getResource_snd rid db r hpres]
    rfl
  · rw [getN_find? rd.id n (addResource now rd dbF) (rd.store now 0)
      (addResource_fresh_find? now rd dbF hfresh)]
    simp [ResourceData.store]

/-- C3 witness: concrete present, absent, and fresh-insert instances. -/
theorem getResource_read_increments_witness :
    ([samplePubmedData.store "t0" 0].find? (fun x => x.id == "pubmed-1")
        = some (samplePubmedData.store "t0" 0))
    ∧ (([] : List Resource).find? (fun x => x.id == "nope") = none)
    ∧ (([] : List Resource).any (fun x => x.id == samplePubmedData.id) = false)
    ∧ ((getResource "pubmed-1" [samplePubmedData.store "t0" 0]).1
        = some (samplePubmedData.store "t0" 0)
      ∧ (getResource "pubmed-1" [samplePubmedData.store "t0" 0]).2
          = [samplePubmedData.store "t0" 0].map (fun x =>
              if x.id == "pubmed-1" then { x with access_count := x.access_count + 1 } else x)
      ∧ ((getResource "pubmed-1" [samplePubmedData.store "t0" 0]).2.find?
            (fun x => x.id == "pubmed-1")).map Resource.access_count
          = some ((samplePubmedData.store "t0" 0).access_count + 1)
      ∧ getResource "nope" ([] : List Resource) = (none, ([] : List Resource))
      ∧ ((getN samplePubmedData.id 2 (addResource "t0" samplePubmedData [])).find?
            (fun x => x.id == samplePubmedData.id)).map Resource.access_count = some 2) :=
  ⟨by decide, by decide, by decide,
    getResource_read_increments "pubmed-1" "nope" "t0" samplePubmedData
      [samplePubmedData.store "t0" 0] [] [] (samplePubmedData.store "t0" 0) 2
      (by decide) (by decide) (by decide)⟩

/-- C10.  The row `get_resource` returns is the one fetched before the
`UPDATE`, so it carries the pre-increment `access_count`: generally the
returned value is `find?` on the unmodified table, and after `n` earlier
reads of a freshly inserted resource the next read returns count `n`
while leaving `n + 1` in the table. -/
theorem getResource_pre_increment
    (rid2 now : String) (rd : ResourceData) (db db2 : List Resource) (n : Nat)
    (hfresh : db.any (fun x => x.id == rd.id) = false) :
    (getResource rid2 db2).1 = db2.find? (fun x => x.id == rid2)
    ∧ ((getResource rd.id (getN rd.id n (addResource now rd db))).1).map
        Resource.access_count = some n
    ∧ (((getResource rd.id (getN rd.id n (addResource now rd db))).2).find?
          (fun x => x.id == rd.id)).map Resource.access_count = some (n + 1) := by
  have hn : (getN rd.id n (addResource now rd db)).find? (fun x => x.id == rd.id)
      = some { rd.store now 0 with access_count := (rd.store now 0).access_count + n } :=
    getN_find? rd.id n (addResource now rd db) (rd.store now 0)
      (addResource_fresh_find? now rd db hfresh)
  refine ⟨getResource_fst rid2 db2, ?_, ?_⟩
  · rw [getResource_fst, hn]
    simp [ResourceData.store]
  · rw [find?_getResource_snd rd.id (getN rd.id n (addResource now rd db)) _ hn]
    simp [ResourceData.store]

/-- C10 witness: after 2 reads of a fresh insert, the 3rd read returns
count 2 and stores count 3. -/
theorem getResource_pre_increment_witness :
    (([] : List Resource).any (fun x => x.id == samplePubmedData.id) = false)
    ∧ ((getResource "other" [samplePubmedData.store "t0" 0]).1
        = [samplePubmedData.store "t0" 0].find? (fun x => x.id == "other")
      ∧ ((getResource samplePubmedData.id
            (getN samplePubmedData.id 2 (addResource "t0" samplePubmedData []))).1).map
          Resource.access_count = some 2
      ∧ (((getResource samplePubmedData.id
            (getN samplePubmedData.id 2 (addResource "t0" samplePubmedData []))).2).find?
            (fun x => x.id == samplePubmedData.id)).map Resource.access_count = some (2 + 1)) :=
  ⟨by decide,
    getResource_pre_increment "other" "t0" samplePubmedData []
      [samplePubmedData.store "t0" 0] 2 (by decide)⟩

/-- C4.  Cache-satisfies-request short-circuit: whenever the local store
search already returns at least `max_results` rows,
`search_medical_content` returns exactly those rows, leaves the table
unchanged, and calls neither adapter. -/
theorem searchMedicalContent_cache_short_circuit
    (sp sb : String → Nat → Except String (List ResourceData))
    (now query : String) (specialty difficulty content_type : Option String)
    (max_results : Nat) (db : List Resource)
    (h : max_results ≤ (searchResources (some query) specialty difficulty content_type
        max_results db).length) :
    searchMedicalContent sp sb now query specialty difficulty content_type max_results db
      = ⟨(searchResources (some query) specialty difficulty content_type max_results db).map
          SearchItem.stored, db, false, false⟩ := by
  simp only [searchMedicalContent]
  rw [if_pos h]

/-- C4 witness: a store already holding one matching row and
`max_results = 1`; the adapters would blow up if consulted. -/
theorem searchMedicalContent_cache_short_circuit_witness :
    (1 ≤ (searchResources (some "Sample") none none none 1
        [samplePubmedData.store "t0" 0]).length)
    ∧ searchMedicalContent (fun _ _ => .error "pubmed down") (fun _ _ => .error "books down")
        "t1" "Sample" none none none 1 [samplePubmedData.store "t0" 0]
      = ⟨(searchResources (some "Sample") none none none 1
            [samplePubmedData.store "t0" 0]).map SearchItem.stored,
          [samplePubmedData.store "t0" 0], false, false⟩ :=
  ⟨by decide,
    searchMedicalContent_cache_short_circuit (fun _ _ => .error "pubmed down")
      (fun _ _ => .error "books down") "t1" "Sample" none none none 1
      [samplePubmedData.store "t0" 0] (by decide)⟩

/-- C6.  Adapter isolation: when the local search is short, the PubMed
adapter fails (raises) and the Bookshelf adapter succeeds,
`search_medical_content` still returns normally with the local rows
followed by Bookshelf's results, writes Bookshelf's results through to
the store, and PubMed's failure contributes nothing and aborts
nothing. -/
theorem searchMedicalContent_adapter_isolation
    (sp sb : String → Nat → Except String (List ResourceData))
    (now query : String) (specialty difficulty content_type : Option String)
    (max_results : Nat) (db : List Resource) (e : String) (rs : List ResourceData)
    (hlocal : (searchResources (some query) specialty difficulty content_type
        max_results db).length < max_results)
    (hp : sp query ((max_results - (searchResources (some query) specialty difficulty
        content_type max_results db).length) / 2) = .error e)
    (hb : sb query ((max_results - (searchResources (some query) specialty difficulty
          content_type max_results db).length)
        - (max_results - (searchResources (some query) specialty difficulty
          content_type max_results db).length) / 2) = .ok rs) :
    (searchMedicalContent sp sb now query specialty difficulty content_type
        max_results db).results
      = ((searchResources (some query) specialty difficulty content_type max_results db).map
          SearchItem.stored ++ rs.map SearchItem.fetched).take max_results
    ∧ (searchMedicalContent sp sb now query specialty difficulty content_type
        max_results db).resources = storeAll now rs db
    ∧ (searchMedicalContent sp sb now query specialty difficulty content_type
        max_results db).bookshelfCalled = true := by
  have hnot : ¬ max_results ≤ (searchResources (some query) specialty difficulty
      content_type max_results db).length := by omega
  have hbc : 0 < (max_results - (searchResources (some query) specialty difficulty
        content_type max_results db).length)
      - (max_results - (searchResources (some query) specialty difficulty
        content_type max_results db).length) / 2 := by omega
  simp only [searchMedicalContent]
  rw [if_neg hnot]
  by_cases hpc : 0 < (max_results - (searchResources (some query) specialty difficulty
      content_type max_results db).length) / 2
  · rw [if_pos hpc, hp, if_pos hbc, hb]
    simp
  · rw [if_neg hpc, if_pos hbc, hb]
    simp

/-- C6 witness: empty store, PubMed failing, Bookshelf returning one
record, `max_results = 2`. -/
theorem searchMedicalContent_adapter_isolation_witness :
    ((searchResources (some "q") none none none 2 ([] : List Resource)).length < 2)
    ∧ ((fun (_ : String) (_ : Nat) =>
          (.error "pubmed down" : Except String (List ResourceData))) "q"
        ((2 - (searchResources (some "q") none none none 2 ([] : List Resource)).length) / 2)
        = .error "pubmed down")
    ∧ ((fun (_ : String) (_ : Nat) =>
          (.ok [samplePubmedData] : Except String (List ResourceData))) "q"
        ((2 - (searchResources (some "q") none none none 2 ([] : List Resource)).length)
          - (2 - (searchResources (some "q") none none none 2
              ([] : List Resource)).length) / 2)
        = .ok [samplePubmedData])
    ∧ ((searchMedicalContent
          (fun _ _ => (.error "pubmed down" : Except String (List ResourceData)))
          (fun _ _ => (.ok [samplePubmedData] : Except String (List ResourceData)))
          "t0" "q" none none none 2 []).results
        = ((searchResources (some "q") none none none 2 ([] : List Resource)).map
            SearchItem.stored ++ [samplePubmedData].map SearchItem.fetched).take 2
      ∧ (searchMedicalContent
          (fun _ _ => (.error "pubmed down" : Except String (List ResourceData)))
          (fun _ _ => (.ok [samplePubmedData] : Except String (List ResourceData)))
          "t0" "q" none none none 2 []).resources = storeAll "t0" [samplePubmedData] []
      ∧ (searchMedicalContent
          (fun _ _ => (.error "pubmed down" : Except String (List ResourceData)))
          (fun _ _ => (.ok [samplePubmedData] : Except String (List ResourceData)))
          "t0" "q" none none none 2 []).bookshelfCalled = true) :=
  ⟨by decide, rfl, rfl,
    searchMedicalContent_adapter_isolation
      (fun _ _ => (.error "pubmed down" : Except String (List ResourceData)))
      (fun _ _ => (.ok [samplePubmedData] : Except String (List ResourceData)))
      "t0" "q" none none none 2 [] "pubmed down" [samplePubmedData]
      (by decide) rfl rfl⟩

/-- C5.  `get_related_topics` returns
`dedup(parents ++ children ++ siblings)` truncated to `limit` in
first-seen order, with the sibling sub-query independently truncated to
`limit` before the merge; and on the two-edge example graph,
`get_related("cardiac cycle", 5)` is exactly
`["cardiovascular physiology"]`. -/
theorem getRelatedTopics_contract (topic : String) (limit : Nat) (tms : List TopicMapping) :
    getRelatedTopics topic limit tms = relatedTopicsSpec topic limit tms
    ∧ getRelatedTopics "cardiac cycle" 5
        [⟨"cardiac cycle", some "cardiovascular physiology", none, none⟩,
         ⟨"heart valves", some "cardiac anatomy", none, none⟩]
      = ["cardiovascular physiology"] :=
  ⟨rfl, by decide⟩

theorem addUserDocument_res_find (now ts title content : String) (db : List Resource) :
    (addResource now
        ⟨"user-doc-" ++ ts, title, "user_provided", none, none, some "document", none,
          some (.obj [("content", content)])⟩ db).find?
      (fun r => r.id == "user-doc-" ++ ts)
      = some (ResourceData.store
          ⟨"user-doc-" ++ ts, title, "user_provided", none, none, some "document", none,
            some (.obj [("content", content)])⟩ now
          (((db.find? (fun r => r.id == "user-doc-" ++ ts)).map
            Resource.access_count).getD 0)) :=
  addResource_find? now
    ⟨"user-doc-" ++ ts, title, "user_provided", none, none, some "document", none,
      some (.obj [("content", content)])⟩ db

/-- C9.  `add_user_document` mirrors every imported document into the
resources table: on success the returned id is `user-doc-<ts>`, the
`user_documents` table holds exactly the new row under that id, and the
resources table holds a row with the same id, the same title, and
`content_type = 'document'`. -/
theorem addUserDocument_mirror (ts now title content docId : String)
    (st st' : DBState)
    (h : addUserDocument ts now title content st = some (docId, st')) :
    docId = "user-doc-" ++ ts
    ∧ st'.user_documents.find? (fun d => d.id == docId)
        = some ⟨docId, title, content, now⟩
    ∧ (st'.resources.find? (fun r => r.id == docId)).map
        (fun r => (r.id, r.title, r.content_type))
      = some (docId, title, some "document") := by
  unfold addUserDocument at h
  by_cases hdup : st.user_documents.any (fun d => d.id == ("user-doc-" ++ ts)) = true
  · rw [if_pos hdup] at h
    exact absurd h (by simp)
  · rw [if_neg hdup] at h
    have hdup' : st.user_documents.any (fun d => d.id == ("user-doc-" ++ ts)) = false := by
      simpa using hdup
    simp only [Option.some.injEq, Prod.mk.injEq] at h
    obtain ⟨hid, hst⟩ := h
    subst hid
    subst hst
    refine ⟨rfl, ?_, ?_⟩
    · rw [List.find?_append]
      have hnone : st.user_documents.find? (fun d => d.id == ("user-doc-" ++ ts)) = none := by
        rw [List.find?_eq_none]
        intro x hx
        exact fun hpx => by simpa [hpx] using List.any_eq_false.mp hdup' x hx
      rw [hnone]
      simp
    · dsimp only
      rw [addUserDocument_res_find]
      rfl

/-- C9 witness: importing one document into the empty database. -/
theorem addUserDocument_mirror_witness :
    (addUserDocument "20250101120000" "t0" "Notes" "Body" ⟨[], []⟩
      = some ("user-doc-20250101120000",
          ⟨addResource "t0"
              ⟨"user-doc-20250101120000", "Notes", "user_provided", none, none,
                some "document", none, some (.obj [("content", "Body")])⟩ [],
            [⟨"user-doc-20250101120000", "Notes", "Body", "t0"⟩]⟩))
    ∧ ("user-doc-20250101120000" = "user-doc-" ++ "20250101120000"
      ∧ (DBState.user_documents
            ⟨addResource "t0"
                ⟨"user-doc-20250101120000", "Notes", "user_provided", none, none,
                  some "document", none, some (.obj [("content", "Body")])⟩ [],
              [⟨"user-doc-20250101120000", "Notes", "Body", "t0"⟩]⟩).find?
          (fun d => d.id == "user-doc-20250101120000")
        = some ⟨"user-doc-20250101120000", "Notes", "Body", "t0"⟩
      ∧ ((DBState.resources
            ⟨addResource "t0"
                ⟨"user-doc-20250101120000", "Notes", "user_provided", none, none,
                  some "document", none, some (.obj [("content", "Body")])⟩ [],
              [⟨"user-doc-20250101120000", "Notes", "Body", "t0"⟩]⟩).find?
          (fun r => r.id == "user-doc-20250101120000")).map
            (fun r => (r.id, r.title, r.content_type))
        = some ("user-doc-20250101120000", "Notes", some "document")) :=
  ⟨rfl,
    addUserDocument_mirror "20250101120000" "t0" "Notes" "Body"
      "user-doc-20250101120000" ⟨[], []⟩
      ⟨addResource "t0"
          ⟨"user-doc-20250101120000", "Notes", "user_provided", none, none,
            some "document", none, some (.obj [("content", "Body")])⟩ [],
        [⟨"user-doc-20250101120000", "Notes", "Body", "t0"⟩]⟩ rfl⟩

/-- C8.  An id matching none of the `pubmed-` / `bookshelf-` /
`user-doc-` forms (and not cached) makes `get_resource_content` return
the unknown-format error dict with the store untouched and no adapter
consulted, and that error value differs from every not-found error value
the code can produce. -/
theorem getResourceContent_malformed_id
    (fp fb : String → Except String ResourceData)
    (fc : String → String → Except String ResourceData)
    (now rid : String) (st : DBState)
    (h1 : pyStartsWith rid "pubmed-" = false)
    (h2 : pyStartsWith rid "bookshelf-" = false)
    (h3 : pyStartsWith rid "user-doc-" = false)
    (h4 : st.resources.find? (fun r => r.id == rid) = none) :
    getResourceContent fp fb fc now rid st
      = ⟨.error ("Unknown resource ID format: " ++ rid), st, false⟩
    ∧ DetailResult.error ("Unknown resource ID format: " ++ rid)
        ≠ DetailResult.error "Article not found"
    ∧ DetailResult.error ("Unknown resource ID format: " ++ rid)
        ≠ DetailResult.error "Book not found"
    ∧ DetailResult.error ("Unknown resource ID format: " ++ rid)
        ≠ DetailResult.error "Chapter not found"
    ∧ DetailResult.error ("Unknown resource ID format: " ++ rid)
        ≠ DetailResult.error ("User document not found: " ++ rid) := by
  have e1 : ("Unknown resource ID format: ").length = 28 := rfl
  have e2 : ("Article not found").length = 17 := rfl
  have e3 : ("Book not found").length = 14 := rfl
  have e4 : ("Chapter not found").length = 17 := rfl
  have e5 : ("User document not found: ").length = 25 := rfl
  refine ⟨?_, ?_, ?_, ?_, ?_⟩
  · have hget := getResource_absent rid st.resources h4
    simp only [getResourceContent, hget]
    simp only [resolveById, h1, h2, h3]
    rfl
  · simp only [ne_eq, DetailResult.error.injEq]
    intro hq
    have hl := congrArg String.length hq
    rw [String.length_append, e1, e2] at hl
    omega
  · simp only [ne_eq, DetailResult.error.injEq]
    intro hq
    have hl := congrArg String.length hq
    rw [String.length_append, e1, e3] at hl
    omega
  · simp only [ne_eq, DetailResult.error.injEq]
    intro hq
    have hl := congrArg String.length hq
    rw [String.length_append, e1, e4] at hl
    omega
  · simp only [ne_eq, DetailResult.error.injEq]
    intro hq
    have hl := congrArg String.length hq
    rw [String.length_append, String.length_append, e1, e5] at hl
    omega

/-- C8 witness: `get_resource_content("unknown-prefix-123")` on the empty
database. -/
theorem getResourceContent_malformed_id_witness :
    (pyStartsWith "unknown-prefix-123" "pubmed-" = false)
    ∧ (pyStartsWith "unknown-prefix-123" "bookshelf-" = false)
    ∧ (pyStartsWith "unknown-prefix-123" "user-doc-" = false)
    ∧ ((DBState.resources ⟨[], []⟩).find? (fun r => r.id == "unknown-prefix-123") = none)
    ∧ (getResourceContent (fun _ => .error "Article not found")
          (fun _ => .error "Book not found") (fun _ _ => .error "Chapter not found")
          "t0" "unknown-prefix-123" ⟨[], []⟩
        = ⟨.error ("Unknown resource ID format: " ++ "unknown-prefix-123"), ⟨[], []⟩, false⟩
      ∧ DetailResult.error ("Unknown resource ID format: " ++ "unknown-prefix-123")
          ≠ DetailResult.error "Article not found"
      ∧ DetailResult.error ("Unknown resource ID format: " ++ "unknown-prefix-123")
          ≠ DetailResult.error "Book not found"
      ∧ DetailResult.error ("Unknown resource ID format: " ++ "unknown-prefix-123")
          ≠ DetailResult.error "Chapter not found"
      ∧ DetailResult.error ("Unknown resource ID format: " ++ "unknown-prefix-123")
          ≠ DetailResult.error ("User document not found: " ++ "unknown-prefix-123")) :=
  ⟨by decide, by decide, by decide, rfl,
    getResourceContent_malformed_id (fun _ => .error "Article not found")
      (fun _ => .error "Book not found") (fun _ _ => .error "Chapter not found")
      "t0" "unknown-prefix-123" ⟨[], []⟩ (by decide) (by decide) (by decide) rfl⟩

/-- C7 counterexample.  "The store state is unchanged on the error path"
fails as literally stated: with `pubmed-1` stored (empty cached payload,
count 0), a failed detail fetch returns an error, yet the store differs
afterwards — the `access_count` increment committed by the cache lookup
remains. -/
theorem getResourceContent_error_path_changes_store :
    (getResourceContent (fun _ => .error "Article not found")
        (fun _ => .error "Book not found") (fun _ _ => .error "Chapter not found")
        "t1" "pubmed-1" ⟨[samplePubmedData.store "t0" 0], []⟩).result
      = .error "Article not found"
    ∧ (getResourceContent (fun _ => .error "Article not found")
        (fun _ => .error "Book not found") (fun _ _ => .error "Chapter not found")
        "t1" "pubmed-1" ⟨[samplePubmedData.store "t0" 0], []⟩).state
      ≠ ⟨[samplePubmedData.store "t0" 0], []⟩
    ∧ (getResourceContent (fun _ => .error "Article not found")
        (fun _ => .error "Book not found") (fun _ _ => .error "Chapter not found")
        "t1" "pubmed-1" ⟨[samplePubmedData.store "t0" 0], []⟩).state
      = ⟨[samplePubmedData.store "t0" 1], []⟩ := by
  decide

/-- C7 amended.  Errors are never cached: a successful detail fetch is
written through via `add_resource` before being returned, while a failed
fetch returns the error with no further write — the only store change on
the error path is the `access_count` increment already committed by the
initial cache lookup, so when the id is absent from the resources table
the error path leaves the whole database state literally unchanged. -/
theorem getResourceContent_error_not_persisted
    (fp fb : String → Except String ResourceData)
    (fc : String → String → Except String ResourceData)
    (now rid e : String) (st st2 : DBState) (rd2 : ResourceData) (e2 : String) (c2 : Bool)
    (hpm : pyStartsWith rid "pubmed-" = true)
    (h4 : st.resources.find? (fun r => r.id == rid) = none)
    (hfp : fp (pyRemoveAll rid "pubmed-") = .error e) :
    finishFetch now st2 (.ok rd2) c2
      = ⟨.fetched rd2, { st2 with resources := addResource now rd2 st2.resources }, c2⟩
    ∧ finishFetch now st2 (.error e2) c2 = ⟨.error e2, st2, c2⟩
    ∧ getResourceContent fp fb fc now rid st = ⟨.error e, st, true⟩ := by
  refine ⟨rfl, rfl, ?_⟩
  have hget := getResource_absent rid st.resources h4
  simp only [getResourceContent, hget]
  simp only [resolveById, hpm]
  rw [hfp, if_pos trivial]
  rfl

/-- C7 witness: a failing PubMed fetch for an id absent from the store. -/
theorem getResourceContent_error_not_persisted_witness :
    (pyStartsWith "pubmed-9" "pubmed-" = true)
    ∧ ((DBState.resources ⟨[], []⟩).find? (fun r => r.id == "pubmed-9") = none)
    ∧ ((fun (_ : String) =>
          (.error "Article not found" : Except String ResourceData))
        (pyRemoveAll "pubmed-9" "pubmed-") = .error "Article not found")
    ∧ (finishFetch "t1" ⟨[], []⟩ (.ok samplePubmedData) true
        = ⟨.fetched samplePubmedData,
            { (⟨[], []⟩ : DBState) with
                resources := addResource "t1" samplePubmedData (DBState.resources ⟨[], []⟩) },
            true⟩
      ∧ finishFetch "t1" ⟨[], []⟩ (.error "x") true = ⟨.error "x", ⟨[], []⟩, true⟩
      ∧ getResourceContent (fun _ => .error "Article not found")
          (fun _ => .error "Book not found") (fun _ _ => .error "Chapter not found")
          "t1" "pubmed-9" ⟨[], []⟩
        = ⟨.error "Article not found", ⟨[], []⟩, true⟩) :=
  ⟨by decide, rfl, rfl,
    getResourceContent_error_not_persisted (fun _ => .error "Article not found")
      (fun _ => .error "Book not found") (fun _ _ => .error "Chapter not found")
      "t1" "pubmed-9" "Article not found" ⟨[], []⟩ ⟨[], []⟩ samplePubmedData "x" true
      (by decide) rfl rfl⟩

/-- C1.  Divergence of the ID round-trip claim: a pubmed search result
carries no `cached_content` key, so `add_resource` stores the payload
`\x7b\x7d`; when `get_resource_content` later parses that payload it is falsy,
the cache-hit branch is skipped, and the adapter IS called again — the
result is a fresh fetch, not the cached row. -/
theorem pubmed_roundtrip_cache_divergence :
    ((addResource "t0" samplePubmedData []).find? (fun r => r.id == "pubmed-1")).map
        Resource.cached_content = some (.obj [])
    ∧ (getResourceContent (fun _ => .ok samplePubmedData)
          (fun _ => .error "Book not found") (fun _ _ => .error "Chapter not found")
          "t1" "pubmed-1" ⟨addResource "t0" samplePubmedData [], []⟩).adapterCalled = true
    ∧ (getResourceContent (fun _ => .ok samplePubmedData)
          (fun _ => .error "Book not found") (fun _ _ => .error "Chapter not found")
          "t1" "pubmed-1" ⟨addResource "t0" samplePubmedData [], []⟩).result
        = .fetched samplePubmedData := by
  decide

end MedAdapt
